import Mathlib

/-!
Verification development for the weather forecast core (src/weather.py).

The embedding is shallow: Python values flowing through the core are
modelled by the inductive type Json, Python exceptions by explicit
Except results, and the network layer by a function from attempt index
to the outcome of that attempt.  Machine floats for latitude/longitude
and the retry delay are modelled by rationals (all comparisons and
arithmetic performed by the code are exact on the values of interest).
-/

namespace Weather

/-- A Python value as it appears in decoded JSON payloads: None, bool,
number, string, list, or dict (modelled as an association list kept in
insertion order). -/
inductive Json where
  | null : Json
  | bool : Bool → Json
  | num : Int → Json
  | str : String → Json
  | arr : List Json → Json
  | obj : List (String × Json) → Json

/-- Python truthiness (bool(x)) for the modelled values. -/
def Json.truthy : Json → Bool
  | .null => false
  | .bool b => b
  | .num n => n != 0
  | .str s => s != ""
  | .arr xs => !xs.isEmpty
  | .obj fs => !fs.isEmpty

/-- isinstance(x, list). -/
def Json.isList : Json → Bool
  | .arr _ => true
  | _ => false

/-- Whether the value is a dict (so that .get is available). -/
def Json.isObj : Json → Bool
  | .obj _ => true
  | _ => false

/-- Python type name, used in exception messages. -/
def Json.typeName : Json → String
  | .null => "NoneType"
  | .bool _ => "bool"
  | .num _ => "int"
  | .str _ => "str"
  | .arr _ => "list"
  | .obj _ => "dict"

/-- Python equality test of a modelled value against a string literal:
str == str compares contents, any other type compares unequal. -/
def pyEqStr (j : Json) (s : String) : Bool :=
  match j with
  | .str t => t == s
  | _ => false

/-- str.join: sep.join(xs). -/
def pyJoin (sep : String) : List String → String
  | [] => ""
  | [x] => x
  | x :: xs => x ++ (sep ++ pyJoin sep xs)

/-- Exceptions the formatter code can raise while navigating the
payload (the request layer's WeatherAPIError is modelled separately). -/
inductive PyErr where
  | keyError : String → PyErr
  | attributeError : String → PyErr
  | typeError : String → PyErr
deriving DecidableEq, Repr

mutual

/-- repr(x) for modelled values, as interpolated by Python str() on
containers. -/
def Json.pyRepr : Json → String
  | .null => "None"
  | .bool true => "True"
  | .bool false => "False"
  | .num n => toString n
  | .str s => "\x27" ++ s ++ "\x27"
  | .arr xs => "[" ++ pyJoin ", " (Json.reprList xs) ++ "]"
  | .obj fs => "\x7b" ++ pyJoin ", " (Json.reprFields fs) ++ "\x7d"

/-- repr of each element of a list. -/
def Json.reprList : List Json → List String
  | [] => []
  | x :: xs => Json.pyRepr x :: Json.reprList xs

/-- repr of each key: value pair of a dict. -/
def Json.reprFields : List (String × Json) → List String
  | [] => []
  | (k, v) :: fs => ("\x27" ++ k ++ "\x27: " ++ Json.pyRepr v) :: Json.reprFields fs

end

/-- str(x): strings unchanged, other values via repr-like rendering. -/
def Json.pyStr : Json → String
  | .str s => s
  | j => j.pyRepr

/-- Association-list lookup, first binding wins (dict field access). -/
def lookupField (fs : List (String × Json)) (k : String) : Option Json :=
  (fs.find? (fun p => p.1 == k)).map Prod.snd

/-- x.get(k, d): defaulting lookup on a dict; on any non-dict value the
attribute access raises AttributeError, as in Python. -/
def pyGet (j : Json) (k : String) (d : Json) : Except PyErr Json :=
  match j with
  | .obj fs => .ok ((lookupField fs k).getD d)
  | _ => .error (.attributeError
      ("\x27" ++ j.typeName ++ "\x27 object has no attribute \x27get\x27"))

/-- iter(x): lists yield their elements, dicts their keys, strings their
characters; other values raise TypeError. -/
def Json.pyIter : Json → Except PyErr (List Json)
  | .arr xs => .ok xs
  | .obj fs => .ok (fs.map (fun p => Json.str p.1))
  | .str s => .ok (s.data.map (fun c => Json.str (String.singleton c)))
  | j => .error (.typeError ("\x27" ++ j.typeName ++ "\x27 object is not iterable"))

/-! ## Request executor: make_gc_request (src/weather.py lines 42-102) -/

/-- Constant MAX_RETRIES = 2. -/
def MAX_RETRIES : Nat := 2

/-- Constant RETRY_DELAY = 1.0 (seconds). -/
def RETRY_DELAY : ℚ := 1

/-- Constant REQUEST_TIMEOUT = 30.0 (seconds); not consulted by any
control-flow decision in the model. -/
def REQUEST_TIMEOUT : ℚ := 30

/-- What the network layer does on one attempt: the parsed body of a
successful response, an httpx.HTTPStatusError raised by
raise_for_status (status code plus the exception's str), an
httpx.RequestError / TimeoutException (transport failure), or any
other exception raised inside the try body. -/
inductive AttemptOutcome where
  | success : Json → AttemptOutcome
  | httpStatus : Nat → String → AttemptOutcome
  | transport : String → AttemptOutcome
  | unexpected : String → AttemptOutcome

/-- The exception recorded into last_error by a retryable attempt. -/
inductive LastErr where
  | httpStatus : Nat → String → LastErr
  | transport : String → LastErr
deriving DecidableEq, Repr

/-- str() of the recorded exception, used in the exhausted message. -/
def LastErr.toMsg : LastErr → String
  | .httpStatus _ m => m
  | .transport m => m

/-- The error recorded by an attempt when the code treats it as
retryable; none when the attempt succeeds or aborts at once. -/
def AttemptOutcome.retryErr : AttemptOutcome → Option LastErr
  | .success _ => none
  | .httpStatus code msg =>
      if 400 ≤ code ∧ code < 500 ∧ code ≠ 429 then none
      else some (.httpStatus code msg)
  | .transport msg => some (.transport msg)
  | .unexpected _ => none

/-- WeatherAPIError as raised by make_gc_request: an aborted client
error, a wrapped unexpected exception, or exhausted retries carrying
the reported attempt total and the last recorded error. -/
inductive WeatherAPIError where
  | clientError : Nat → String → WeatherAPIError
  | unexpectedError : String → WeatherAPIError
  | exhausted : Nat → Option LastErr → WeatherAPIError
deriving DecidableEq, Repr

/-- str() of the WeatherAPIError, mirroring the three f-strings at the
raise sites in make_gc_request. -/
def WeatherAPIError.message : WeatherAPIError → String
  | .clientError _ m => "Client error: " ++ m
  | .unexpectedError m => "Unexpected error: " ++ m
  | .exhausted n last =>
      "Failed after " ++ toString n ++ " attempts: " ++
        (match last with
         | none => "None"
         | some e => e.toMsg)

/-- Observable result of running make_gc_request: the returned value or
raised WeatherAPIError, the number of HTTP attempts performed, and the
backoff delays slept, in order. -/
structure RunResult where
  result : Except WeatherAPIError Json
  attempts : Nat
  sleeps : List ℚ

/-- The while-loop of make_gc_request.  fuel counts the remaining
iterations allowed by the guard attempt <= retries, so it is invariably
retries + 1 - attempt; sleeps is accumulated in reverse. -/
def gcLoop (outcomes : Nat → AttemptOutcome) (retries : Nat) :
    Nat → Nat → Option LastErr → List ℚ → RunResult
  | 0, attempt, lastError, sleeps =>
      ⟨.error (.exhausted (retries + 1) lastError), attempt, sleeps.reverse⟩
  | fuel + 1, attempt, _, sleeps =>
      match outcomes attempt with
      | .success body => ⟨.ok body, attempt + 1, sleeps.reverse⟩
      | .httpStatus code msg =>
          if 400 ≤ code ∧ code < 500 ∧ code ≠ 429 then
            ⟨.error (.clientError code msg), attempt + 1, sleeps.reverse⟩
          else if attempt + 1 ≤ retries then
            gcLoop outcomes retries fuel (attempt + 1)
              (some (.httpStatus code msg)) (RETRY_DELAY * 2 ^ attempt :: sleeps)
          else
            gcLoop outcomes retries fuel (attempt + 1)
              (some (.httpStatus code msg)) sleeps
      | .transport msg =>
          if attempt + 1 ≤ retries then
            gcLoop outcomes retries fuel (attempt + 1)
              (some (.transport msg)) (RETRY_DELAY * 2 ^ attempt :: sleeps)
          else
            gcLoop outcomes retries fuel (attempt + 1)
              (some (.transport msg)) sleeps
      | .unexpected msg => ⟨.error (.unexpectedError msg), attempt + 1, sleeps.reverse⟩

/-- make_gc_request(url, retries): runs the attempt loop starting at
attempt 0 with no recorded error.  The url only selects which network
environment (outcomes) the attempts hit, so it is abstracted into that
function. -/
def make_gc_request (outcomes : Nat → AttemptOutcome) (retries : Nat) : RunResult :=
  gcLoop outcomes retries (retries + 1) 0 none []

/-! ## Formatter: format_forecast (src/weather.py lines 105-136) -/

/-- The f-string block built for one retained entry:
"\n{date}:\nForecast: {text}\n". -/
def renderBlock (date text : Json) : String :=
  "\n" ++ (date.pyStr ++ (":\nForecast: " ++ (text.pyStr ++ "\n")))

/-- The for-loop of format_forecast: walks the entries, skipping
"Night" entries and entries beyond the max_days cap, accumulating
rendered blocks in reverse. -/
def fmtLoop (max_days : Nat) : List Json → Nat → List String → Except PyErr (List String)
  | [], _, forecasts => .ok forecasts.reverse
  | day :: rest, days_added, forecasts =>
      match pyGet day "periodLabel" .null with
      | .error e => .error e
      | .ok pl =>
          if pyEqStr pl "Night" = true ∨ max_days ≤ days_added then
            fmtLoop max_days rest days_added forecasts
          else
            match pyGet day "date" (.str "Unknown date") with
            | .error e => .error e
            | .ok date =>
                match pyGet day "text" (.str "No forecast available") with
                | .error e => .error e
                | .ok text =>
                    fmtLoop max_days rest (days_added + 1)
                      (renderBlock date text :: forecasts)

/-- format_forecast(daily_forecast, max_days): renders retained blocks
and joins them with "\n---\n", or returns the empty-result sentinel. -/
def format_forecast (daily_forecast : List Json) (max_days : Nat) : Except PyErr String :=
  match fmtLoop max_days daily_forecast 0 [] with
  | .error e => .error e
  | .ok forecasts =>
      if forecasts.isEmpty then .ok "No forecast data available"
      else .ok (pyJoin "\n---\n" forecasts)

/-! ## get_forecast (src/weather.py lines 140-203) -/

/-- forecast_data.get("dailyFcst", \x7b\x7d).get("daily", []). -/
def dailyOf (forecast_data : Json) : Except PyErr Json :=
  match pyGet forecast_data "dailyFcst" (.obj []) with
  | .error e => .error e
  | .ok dfc => pyGet dfc "daily" (.arr [])

/-- The body of the try-block after a successful request: the emptiness
check on api_response (not truthy, not a list, or empty all fall to the
same sentinel, and exactly the non-empty-list payloads pass), the
defaulting navigation to the daily forecast, its truthiness check, and
format_forecast (whose for-loop begins by iterating the value, modelled
here by pyIter before the call). -/
def processResponse (api_response : Json) : Except PyErr String :=
  match api_response with
  | .arr (forecast_data :: _) =>
      match dailyOf forecast_data with
      | .error e => .error e
      | .ok daily_forecast =>
          if daily_forecast.truthy = false then
            .ok "No forecast data available for this location"
          else
            match daily_forecast.pyIter with
            | .error e => .error e
            | .ok days => format_forecast days 5
  | _ => .ok "Unable to fetch forecast data for this location"

/-- The strings produced by the three except-handlers of get_forecast
for an exception escaping payload processing (str(KeyError) is the repr
of the missing key). -/
def handleError : PyErr → String
  | .keyError k => "Unable to process forecast data: missing key \x27" ++ k ++ "\x27"
  | .attributeError m => "Error processing forecast data: " ++ m
  | .typeError m => "Error processing forecast data: " ++ m

/-- A caller-supplied argument as seen through isinstance: a number
(int, float, or bool, which Python counts as int) or any other value. -/
inductive PyValue where
  | num : ℚ → PyValue
  | other : String → PyValue
deriving DecidableEq, Repr

/-- Observable result of get_forecast: the returned string, the number
of HTTP attempts performed, and the backoff delays slept. -/
structure ForecastResult where
  output : String
  attempts : Nat
  sleeps : List ℚ
deriving DecidableEq, Repr

/-- The try/except part of get_forecast: run make_gc_request with the
default MAX_RETRIES, then process the payload; WeatherAPIError and
processing exceptions are formatted by the handlers. -/
def runForecast (outcomes : Nat → AttemptOutcome) : ForecastResult :=
  let r := make_gc_request outcomes MAX_RETRIES
  match r.result with
  | .error e => ⟨"Weather API error: " ++ e.message, r.attempts, r.sleeps⟩
  | .ok api_response =>
      match processResponse api_response with
      | .ok s => ⟨s, r.attempts, r.sleeps⟩
      | .error e => ⟨handleError e, r.attempts, r.sleeps⟩

/-- get_forecast(latitude, longitude): type check, range checks, then
the request/format pipeline. -/
def get_forecast (latitude longitude : PyValue)
    (outcomes : Nat → AttemptOutcome) : ForecastResult :=
  match latitude, longitude with
  | .num lat, .num lon =>
      if lat < -90 ∨ lat > 90 then
        ⟨"Error: Latitude must be between -90 and 90 degrees", 0, []⟩
      else if lon < -180 ∨ lon > 180 then
        ⟨"Error: Longitude must be between -180 and 180 degrees", 0, []⟩
      else runForecast outcomes
  | _, _ => ⟨"Error: Latitude and longitude must be numbers", 0, []⟩

/-! ## Derived views of a forecast entry, for stating theorems -/

/-- day.get("periodLabel") of a dict entry (None when absent). -/
def periodLabelOf (d : Json) : Json :=
  match d with
  | .obj fs => (lookupField fs "periodLabel").getD .null
  | _ => .null

/-- Whether the entry is skipped by the Night filter:
day.get("periodLabel") == "Night". -/
def isNight (d : Json) : Bool := pyEqStr (periodLabelOf d) "Night"

/-- day.get("date", "Unknown date") of a dict entry. -/
def dateFieldOf (d : Json) : Json :=
  match d with
  | .obj fs => (lookupField fs "date").getD (.str "Unknown date")
  | _ => .null

/-- day.get("text", "No forecast available") of a dict entry. -/
def textFieldOf (d : Json) : Json :=
  match d with
  | .obj fs => (lookupField fs "text").getD (.str "No forecast available")
  | _ => .null

/-- The block format_forecast builds for a retained dict entry. -/
def renderEntry (d : Json) : String := renderBlock (dateFieldOf d) (textFieldOf d)

/-- A rendered block: it starts with the newline the f-string opens with. -/
def blockShaped (s : String) : Prop := ∃ m, s = "\n" ++ m

/-- The output format_forecast produces for a given retained-entry
list: the empty-result sentinel, or the rendered blocks joined by the
fixed separator. -/
def joined (kept : List Json) : String :=
  if kept.isEmpty then "No forecast data available"
  else pyJoin "\n---\n" (kept.map renderEntry)

/-- Every attempt slept the exponential-backoff delay, one sleep
strictly between consecutive attempts. -/
def goodSleeps (r : RunResult) : Prop :=
  r.sleeps = (List.range (r.attempts - 1)).map (fun k => RETRY_DELAY * 2 ^ k) ∧
    1 ≤ r.attempts

/-- The strings get_forecast can return: the three validation errors,
a formatted WeatherAPIError, the three no-data sentinels, a formatted
processing error, or a non-empty joined list of rendered blocks. -/
def classified (o : String) : Prop :=
  o = "Error: Latitude and longitude must be numbers" ∨
  o = "Error: Latitude must be between -90 and 90 degrees" ∨
  o = "Error: Longitude must be between -180 and 180 degrees" ∨
  (∃ m, o = "Weather API error: " ++ m) ∨
  o = "Unable to fetch forecast data for this location" ∨
  o = "No forecast data available for this location" ∨
  o = "No forecast data available" ∨
  (∃ m, o = "Error processing forecast data: " ++ m) ∨
  (∃ b bs, o = pyJoin "\n---\n" (b :: bs) ∧ blockShaped b)

/-- The fixed prefix of the KeyError handler's output. -/
def missingKeyPrefix : String := "Unable to process forecast data: missing key "

/-- The daily-forecast entries of the test suite's sample payload. -/
def sampleDays : List Json :=
  [.obj [("date", .str "2023-01-01"), ("periodLabel", .str "Day"),
         ("text", .str "Sunny with cloudy periods")],
   .obj [("date", .str "2023-01-01"), ("periodLabel", .str "Night"),
         ("text", .str "Clear")],
   .obj [("date", .str "2023-01-02"), ("periodLabel", .str "Day"),
         ("text", .str "Cloudy with chance of rain")],
   .obj [("date", .str "2023-01-02"), ("periodLabel", .str "Night"),
         ("text", .str "Cloudy")],
   .obj [("date", .str "2023-01-03"), ("periodLabel", .str "Day"),
         ("text", .str "Sunny")]]

/-- Entries with a lowercase "day" label, an "Evening" label, no label
at all, and a "Night" label, to exercise the retention rule. -/
def mixedDays : List Json :=
  [.obj [("date", .str "d1"), ("periodLabel", .str "day"), ("text", .str "t1")],
   .obj [("date", .str "d2"), ("periodLabel", .str "Evening"), ("text", .str "t2")],
   .obj [("date", .str "d3"), ("text", .str "t3")],
   .obj [("date", .str "d4"), ("periodLabel", .str "Night"), ("text", .str "t4")]]

/-- The test suite's sample API payload. -/
def samplePayload : Json :=
  .arr [.obj [("displayName", .str "Test City"),
              ("dailyFcst", .obj [("daily", .arr sampleDays)])]]

/-! ## Lemmas about the formatter -/

lemma isObj_iff (d : Json) : d.isObj = true ↔ ∃ fs, d = .obj fs := by
  cases d <;> simp [Json.isObj]

lemma fmtLoop_eq (max_days : Nat) :
    ∀ (days : List Json) (n : Nat) (acc : List String),
      (∀ d ∈ days, d.isObj = true) →
      fmtLoop max_days days n acc =
        .ok (acc.reverse ++
          (((days.filter (fun d => !(isNight d))).take (max_days - n)).map renderEntry)) := by
  intro days
  induction days with
  | nil =>
      intro n acc _
      simp [fmtLoop]
  | cons day rest ih =>
      intro n acc hobj
      have hday : day.isObj = true := hobj day (by simp)
      have hrest : ∀ d ∈ rest, d.isObj = true := fun d hd => hobj d (by simp [hd])
      obtain ⟨fs, rfl⟩ := (isObj_iff day).mp hday
      have hpl : pyGet (.obj fs) "periodLabel" .null =
          .ok (periodLabelOf (.obj fs)) := by
        simp [pyGet, periodLabelOf]
      by_cases hnight : isNight (.obj fs) = true
      · have hplNight : pyEqStr (periodLabelOf (.obj fs)) "Night" = true := hnight
        simp only [fmtLoop, hpl]
        rw [if_pos (Or.inl hplNight)]
        rw [ih n acc hrest]
        simp [List.filter_cons, hnight]
      · have hplNot : pyEqStr (periodLabelOf (.obj fs)) "Night" = false := by
          simpa [isNight] using hnight
        by_cases hcap : max_days ≤ n
        · have h0 : max_days - n = 0 := by omega
          simp only [fmtLoop, hpl]
          rw [if_pos (Or.inr hcap)]
          rw [ih n acc hrest]
          simp [List.filter_cons, hnight, h0]
        · have hsucc : max_days - n = (max_days - (n + 1)) + 1 := by omega
          simp only [fmtLoop, hpl]
          rw [if_neg (by simp [hplNot, hcap, isNight])]
          have hdate : pyGet (.obj fs) "date" (.str "Unknown date") =
              .ok (dateFieldOf (.obj fs)) := by
            simp [pyGet, dateFieldOf]
          have htext : pyGet (.obj fs) "text" (.str "No forecast available") =
              .ok (textFieldOf (.obj fs)) := by
            simp [pyGet, textFieldOf]
          simp only [hdate, htext]
          rw [ih (n + 1) (renderBlock (dateFieldOf (.obj fs)) (textFieldOf (.obj fs)) :: acc) hrest]
          simp only [List.filter_cons, hnight, Bool.not_false, if_pos, hsucc,
            List.take_succ_cons, List.map_cons, List.reverse_cons, List.append_assoc,
            List.singleton_append]
          rfl

lemma fmtLoop_blocks (max_days : Nat) :
    ∀ (days : List Json) (n : Nat) (acc l : List String),
      (∀ x ∈ acc, blockShaped x) →
      fmtLoop max_days days n acc = .ok l →
      ∀ x ∈ l, blockShaped x := by
  intro days
  induction days with
  | nil =>
      intro n acc l hacc h
      simp only [fmtLoop, Except.ok.injEq] at h
      subst h
      intro x hx
      exact hacc x (List.mem_reverse.mp hx)
  | cons day rest ih =>
      intro n acc l hacc h
      simp only [fmtLoop] at h
      split at h
      · exact absurd h (by simp)
      · split at h
        · exact ih n acc l hacc h
        · split at h
          · exact absurd h (by simp)
          · split at h
            · exact absurd h (by simp)
            · refine ih (n + 1) _ l ?_ h
              intro x hx
              rcases List.mem_cons.mp hx with hx | hx
              · exact ⟨_, by rw [hx]; rfl⟩
              · exact hacc x hx

lemma pyGet_error (j : Json) (k : String) (d : Json) (e : PyErr)
    (h : pyGet j k d = .error e) : ∃ m, e = .attributeError m := by
  cases j <;> simp [pyGet] at h <;> exact ⟨_, h.symm⟩

lemma pyIter_error (j : Json) (e : PyErr)
    (h : j.pyIter = .error e) : ∃ m, e = .typeError m := by
  cases j <;> simp [Json.pyIter] at h <;> exact ⟨_, h.symm⟩

lemma fmtLoop_error (max_days : Nat) :
    ∀ (days : List Json) (n : Nat) (acc : List String) (e : PyErr),
      fmtLoop max_days days n acc = .error e →
      ∃ m, e = .attributeError m := by
  intro days
  induction days with
  | nil =>
      intro n acc e h
      simp [fmtLoop] at h
  | cons day rest ih =>
      intro n acc e h
      simp only [fmtLoop] at h
      split at h
      · next e2 heq =>
          cases h
          exact pyGet_error _ _ _ _ heq
      · split at h
        · exact ih n acc e h
        · split at h
          · next e2 heq =>
              cases h
              exact pyGet_error _ _ _ _ heq
          · split at h
            · next e2 heq =>
                cases h
                exact pyGet_error _ _ _ _ heq
            · exact ih (n + 1) _ e h

lemma format_forecast_error (days : List Json) (max_days : Nat) (e : PyErr)
    (h : format_forecast days max_days = .error e) : ∃ m, e = .attributeError m := by
  simp only [format_forecast] at h
  split at h
  · next heq =>
      cases h
      exact fmtLoop_error _ _ _ _ _ heq
  · split at h <;> cases h

lemma format_forecast_ok_shape (days : List Json) (max_days : Nat) (s : String)
    (h : format_forecast days max_days = .ok s) :
    s = "No forecast data available" ∨
      ∃ b bs, s = pyJoin "\n---\n" (b :: bs) ∧ blockShaped b := by
  simp only [format_forecast] at h
  split at h
  · cases h
  · next forecasts heq =>
      split at h
      · cases h
        exact Or.inl rfl
      · next hne =>
          cases h
          have hblocks := fmtLoop_blocks max_days days 0 [] forecasts (by simp) heq
          cases forecasts with
          | nil => simp at hne
          | cons b bs =>
              exact Or.inr ⟨b, bs, rfl, hblocks b (by simp)⟩

lemma pyEqStr_true (j : Json) (a : String) (h : pyEqStr j a = true) : j = .str a := by
  cases j <;> simp [pyEqStr] at h
  rw [h]

lemma format_forecast_eq_filter (days : List Json) (max_days : Nat)
    (hobj : ∀ d ∈ days, d.isObj = true) :
    format_forecast days max_days =
      .ok (joined ((days.filter (fun d => !(isNight d))).take max_days)) := by
  have h := fmtLoop_eq max_days days 0 [] hobj
  rw [Nat.sub_zero] at h
  simp only [format_forecast, h, List.reverse_nil, List.nil_append, joined]
  rcases hk : (days.filter (fun d => !(isNight d))).take max_days with _ | ⟨b, bs⟩
  · simp
  · simp

lemma dailyOf_error (j : Json) (e : PyErr) (h : dailyOf j = .error e) :
    ∃ m, e = .attributeError m := by
  simp only [dailyOf] at h
  split at h
  · next heq =>
      cases h
      exact pyGet_error _ _ _ _ heq
  · exact pyGet_error _ _ _ _ h

lemma processResponse_error (j : Json) (e : PyErr)
    (h : processResponse j = .error e) :
    (∃ m, e = .attributeError m) ∨ (∃ m, e = .typeError m) := by
  simp only [processResponse] at h
  split at h
  · split at h
    · next heq =>
        cases h
        exact Or.inl (dailyOf_error _ _ heq)
    · split at h
      · cases h
      · split at h
        · next heq =>
            cases h
            exact Or.inr (pyIter_error _ _ heq)
        · exact Or.inl (format_forecast_error _ _ _ h)
  · cases h

lemma handleError_shape (j : Json) (e : PyErr) (h : processResponse j = .error e) :
    ∃ m, handleError e = "Error processing forecast data: " ++ m := by
  rcases processResponse_error j e h with ⟨m, rfl⟩ | ⟨m, rfl⟩ <;> exact ⟨m, rfl⟩

lemma processResponse_ok_shape (j : Json) (s : String)
    (h : processResponse j = .ok s) :
    s = "Unable to fetch forecast data for this location" ∨
    s = "No forecast data available for this location" ∨
    s = "No forecast data available" ∨
    ∃ b bs, s = pyJoin "\n---\n" (b :: bs) ∧ blockShaped b := by
  simp only [processResponse] at h
  split at h
  · split at h
    · cases h
    · split at h
      · cases h
        exact Or.inr (Or.inl rfl)
      · split at h
        · cases h
        · rcases format_forecast_ok_shape _ _ _ h with h1 | h1
          · exact Or.inr (Or.inr (Or.inl h1))
          · exact Or.inr (Or.inr (Or.inr h1))
  · cases h
    exact Or.inl rfl

/-! ## Lemmas about the request executor -/

lemma gcLoop_zero (oc : Nat → AttemptOutcome) (retries attempt : Nat)
    (le : Option LastErr) (sl : List ℚ) :
    gcLoop oc retries 0 attempt le sl =
      ⟨.error (.exhausted (retries + 1) le), attempt, sl.reverse⟩ := rfl

lemma gcLoop_exhausts (oc : Nat → AttemptOutcome) (retries : Nat) :
    ∀ (fuel attempt : Nat) (le : Option LastErr) (sl : List ℚ),
      attempt + fuel = retries + 1 →
      (∀ i, attempt ≤ i → i ≤ retries → ((oc i).retryErr).isSome = true) →
      (gcLoop oc retries fuel attempt le sl).result =
        .error (.exhausted (retries + 1)
          (if fuel = 0 then le else (oc retries).retryErr)) ∧
      (gcLoop oc retries fuel attempt le sl).attempts = retries + 1 := by
  intro fuel
  induction fuel with
  | zero =>
      intro attempt le sl hinv _hall
      rw [gcLoop_zero]
      refine ⟨by simp, ?_⟩
      show attempt = retries + 1
      omega
  | succ fuel ih =>
      intro attempt le sl hinv hall
      have hattempt : attempt ≤ retries := by omega
      have hsome := hall attempt (Nat.le_refl _) hattempt
      cases h : oc attempt with
      | success body =>
          rw [h] at hsome
          simp [AttemptOutcome.retryErr] at hsome
      | unexpected msg =>
          rw [h] at hsome
          simp [AttemptOutcome.retryErr] at hsome
      | httpStatus code msg =>
          rw [h] at hsome
          have hcond : ¬(400 ≤ code ∧ code < 500 ∧ code ≠ 429) := by
            intro hc
            simp [AttemptOutcome.retryErr, hc] at hsome
          have hretryErr : (AttemptOutcome.httpStatus code msg).retryErr =
              some (.httpStatus code msg) := by
            simp [AttemptOutcome.retryErr, hcond]
          have hlast : (if fuel = 0 then some (LastErr.httpStatus code msg)
              else (oc retries).retryErr) = (oc retries).retryErr := by
            rcases Nat.eq_zero_or_pos fuel with hf | hf
            · have : attempt = retries := by omega
              rw [hf, if_pos rfl, this.symm, h, hretryErr]
            · rw [if_neg (by omega)]
          have hall2 : ∀ i, attempt + 1 ≤ i → i ≤ retries →
              ((oc i).retryErr).isSome = true := by
            intro i h1 h2
            exact hall i (by omega) h2
          by_cases hle : attempt + 1 ≤ retries
          · have := ih (attempt + 1) (some (.httpStatus code msg))
              (RETRY_DELAY * 2 ^ attempt :: sl) (by omega) hall2
            simp only [gcLoop, h, if_neg hcond, if_pos hle]
            rw [hlast] at this
            simpa using this
          · have := ih (attempt + 1) (some (.httpStatus code msg)) sl (by omega) hall2
            simp only [gcLoop, h, if_neg hcond, if_neg hle]
            rw [hlast] at this
            simpa using this
      | transport msg =>
          rw [h] at hsome
          have hretryErr : (AttemptOutcome.transport msg).retryErr =
              some (.transport msg) := by
            simp [AttemptOutcome.retryErr]
          have hlast : (if fuel = 0 then some (LastErr.transport msg)
              else (oc retries).retryErr) = (oc retries).retryErr := by
            rcases Nat.eq_zero_or_pos fuel with hf | hf
            · have : attempt = retries := by omega
              rw [hf, if_pos rfl, this.symm, h, hretryErr]
            · rw [if_neg (by omega)]
          have hall2 : ∀ i, attempt + 1 ≤ i → i ≤ retries →
              ((oc i).retryErr).isSome = true := by
            intro i h1 h2
            exact hall i (by omega) h2
          by_cases hle : attempt + 1 ≤ retries
          · have := ih (attempt + 1) (some (.transport msg))
              (RETRY_DELAY * 2 ^ attempt :: sl) (by omega) hall2
            simp only [gcLoop, h, if_pos hle]
            rw [hlast] at this
            simpa using this
          · have := ih (attempt + 1) (some (.transport msg)) sl (by omega) hall2
            simp only [gcLoop, h, if_neg hle]
            rw [hlast] at this
            simpa using this

lemma gcLoop_sleeps (oc : Nat → AttemptOutcome) (retries : Nat) :
    ∀ (fuel attempt : Nat) (le : Option LastErr),
      attempt + fuel = retries + 1 →
      goodSleeps (gcLoop oc retries fuel attempt le
        (((List.range (min attempt retries)).map
          (fun k => RETRY_DELAY * 2 ^ k)).reverse)) := by
  intro fuel
  induction fuel with
  | zero =>
      intro attempt le hinv
      have hmin : min attempt retries = retries := by omega
      have hatt : attempt - 1 = retries := by omega
      rw [gcLoop_zero]
      constructor
      · simp [hmin, hatt]
      · show 1 ≤ attempt
        omega
  | succ fuel ih =>
      intro attempt le hinv
      have hattempt : attempt ≤ retries := by omega
      have hmin : min attempt retries = attempt := by omega
      cases h : oc attempt with
      | success body =>
          constructor
          · simp [gcLoop, h, hmin]
          · simp [gcLoop, h]
      | unexpected msg =>
          constructor
          · simp [gcLoop, h, hmin]
          · simp [gcLoop, h]
      | httpStatus code msg =>
          by_cases hcond : 400 ≤ code ∧ code < 500 ∧ code ≠ 429
          · constructor
            · simp [gcLoop, h, hcond, hmin]
            · simp [gcLoop, h, hcond]
          · by_cases hle : attempt + 1 ≤ retries
            · have hmin2 : min (attempt + 1) retries = attempt + 1 := by omega
              have := ih (attempt + 1) (some (.httpStatus code msg)) (by omega)
              rw [hmin2] at this
              simp only [gcLoop, h, if_neg hcond, if_pos hle]
              rw [hmin]
              simpa [List.range_succ] using this
            · have hmin2 : min (attempt + 1) retries = attempt := by omega
              have := ih (attempt + 1) (some (.httpStatus code msg)) (by omega)
              rw [hmin2] at this
              simp only [gcLoop, h, if_neg hcond, if_neg hle]
              rw [hmin]
              exact this
      | transport msg =>
          by_cases hle : attempt + 1 ≤ retries
          · have hmin2 : min (attempt + 1) retries = attempt + 1 := by omega
            have := ih (attempt + 1) (some (.transport msg)) (by omega)
            rw [hmin2] at this
            simp only [gcLoop, h, if_pos hle]
            rw [hmin]
            simpa [List.range_succ] using this
          · have hmin2 : min (attempt + 1) retries = attempt := by omega
            have := ih (attempt + 1) (some (.transport msg)) (by omega)
            rw [hmin2] at this
            simp only [gcLoop, h, if_neg hle]
            rw [hmin]
            exact this

lemma make_gc_request_success (oc : Nat → AttemptOutcome) (retries : Nat)
    (j : Json) (h0 : oc 0 = .success j) :
    make_gc_request oc retries = ⟨.ok j, 1, []⟩ := by
  simp [make_gc_request, gcLoop, h0]

/-! ## Claim theorems about the request executor -/

/-- Claim C3: a response whose HTTP status lies in [400, 500) and is
not 429 makes make_gc_request abort at once with a client-error
failure: exactly one attempt, no backoff sleep, no further request,
whatever the retry budget. -/
theorem client_error_aborts_immediately (oc : Nat → AttemptOutcome)
    (retries code : Nat) (msg : String) (h0 : oc 0 = .httpStatus code msg)
    (h1 : 400 ≤ code) (h2 : code < 500) (h3 : code ≠ 429) :
    make_gc_request oc retries = ⟨.error (.clientError code msg), 1, []⟩ := by
  simp [make_gc_request, gcLoop, h0, h1, h2, h3]

/-- Witness for C3: a single 404 response yields exactly one attempt
and an immediate client-error failure. -/
theorem client_error_aborts_immediately_witness :
    make_gc_request (fun _ => .httpStatus 404 "Not Found") MAX_RETRIES =
      ⟨.error (.clientError 404 "Not Found"), 1, []⟩ :=
  client_error_aborts_immediately (fun _ => .httpStatus 404 "Not Found")
    MAX_RETRIES 404 "Not Found" rfl (by decide) (by decide) (by decide)

/-- Claim C4: when every attempt fails retryably (429, a 5xx status,
or a transport error), make_gc_request performs exactly retries + 1
attempts and fails with the exhausted-retries error that reports that
attempt total and carries the last attempt's recorded error. -/
theorem exhausted_retries_attempt_count (oc : Nat → AttemptOutcome)
    (retries : Nat)
    (hall : ∀ i, i ≤ retries → ((oc i).retryErr).isSome = true) :
    (make_gc_request oc retries).result =
      .error (.exhausted (retries + 1) ((oc retries).retryErr)) ∧
    (make_gc_request oc retries).attempts = retries + 1 := by
  have := gcLoop_exhausts oc retries (retries + 1) 0 none [] (by omega)
    (fun i _ h2 => hall i h2)
  rcases this with ⟨h1, h2⟩
  rw [if_neg (by omega)] at h1
  exact ⟨h1, h2⟩

/-- Witness for C4: three consecutive 503 responses with the default
retry budget of 2 yield exactly 3 attempts and an exhausted failure
carrying the last 503 error. -/
theorem exhausted_retries_attempt_count_witness :
    (make_gc_request (fun _ => .httpStatus 503 "Service Unavailable") MAX_RETRIES).result =
      .error (.exhausted 3 (some (.httpStatus 503 "Service Unavailable"))) ∧
    (make_gc_request (fun _ => .httpStatus 503 "Service Unavailable") MAX_RETRIES).attempts = 3 :=
  exhausted_retries_attempt_count (fun _ => .httpStatus 503 "Service Unavailable")
    MAX_RETRIES (fun i _ => by simp [AttemptOutcome.retryErr])

/-- Claim C5: whatever the network does, the delays slept are exactly
RETRY_DELAY * 2 ^ 0, RETRY_DELAY * 2 ^ 1, ... in order (so the k-th
retry is preceded by a RETRY_DELAY * 2 ^ (k-1) sleep), and there is
exactly one fewer sleep than attempts: no sleep follows the final
attempt or a success. -/
theorem backoff_delays_exponential (oc : Nat → AttemptOutcome) (retries : Nat) :
    (make_gc_request oc retries).sleeps =
      (List.range ((make_gc_request oc retries).attempts - 1)).map
        (fun k => RETRY_DELAY * 2 ^ k) ∧
    1 ≤ (make_gc_request oc retries).attempts := by
  have := gcLoop_sleeps oc retries (retries + 1) 0 none (by omega)
  simpa [make_gc_request] using this

/-! ## Classification of get_forecast outputs -/

lemma runForecast_classified (oc : Nat → AttemptOutcome) :
    classified (runForecast oc).output := by
  simp only [runForecast]
  cases h : (make_gc_request oc MAX_RETRIES).result with
  | error e =>
      simp only [h]
      exact Or.inr (Or.inr (Or.inr (Or.inl ⟨e.message, rfl⟩)))
  | ok j =>
      simp only [h]
      cases hp : processResponse j with
      | ok s =>
          simp only [hp]
          rcases processResponse_ok_shape j s hp with h1 | h1 | h1 | h1
          · exact Or.inr (Or.inr (Or.inr (Or.inr (Or.inl h1))))
          · exact Or.inr (Or.inr (Or.inr (Or.inr (Or.inr (Or.inl h1)))))
          · exact Or.inr (Or.inr (Or.inr (Or.inr (Or.inr (Or.inr (Or.inl h1))))))
          · exact Or.inr (Or.inr (Or.inr (Or.inr (Or.inr (Or.inr (Or.inr (Or.inr h1)))))))
      | error e =>
          simp only [hp]
          rcases handleError_shape j e hp with ⟨m, hm⟩
          exact Or.inr (Or.inr (Or.inr (Or.inr (Or.inr (Or.inr (Or.inr (Or.inl ⟨m, hm⟩)))))))

lemma get_forecast_classified (a b : PyValue) (oc : Nat → AttemptOutcome) :
    classified (get_forecast a b oc).output := by
  cases a with
  | other s => cases b <;> exact Or.inl rfl
  | num lat =>
      cases b with
      | other s => exact Or.inl rfl
      | num lon =>
          simp only [get_forecast]
          split
          · exact Or.inr (Or.inl rfl)
          · split
            · exact Or.inr (Or.inr (Or.inl rfl))
            · exact runForecast_classified oc

/-! ## Claim theorems about the formatter and get_forecast -/

/-- Claim C1: for every input pair and every behaviour of the network
layer, get_forecast returns a string of one of the descriptive forms
enumerated by classified: the validation errors, a formatted
WeatherAPIError, a no-data sentinel, a formatted processing error, or
a joined list of rendered forecast blocks.  Exceptions are the
explicit error results of the embedding and every one of them is
mapped to such a string, so none escapes. -/
theorem get_forecast_always_returns_descriptive_string
    (a b : PyValue) (oc : Nat → AttemptOutcome) :
    classified (get_forecast a b oc).output :=
  get_forecast_classified a b oc

/-- Claim C10: when every entry is a dict, format_forecast retains
exactly the entries whose periodLabel is not the string "Night" --
entries with an absent label or any other label value included -- in
their original order, capped at max_days, rendering and counting them
all alike. -/
theorem non_night_entries_retained (days : List Json) (max_days : Nat)
    (hobj : ∀ d ∈ days, d.isObj = true) :
    format_forecast days max_days =
      .ok (joined ((days.filter (fun d => !(isNight d))).take max_days)) :=
  format_forecast_eq_filter days max_days hobj

/-- Witness for C10: entries labelled "day" and "Evening" and an entry
with no label are all retained alongside the cap, while "Night" is
dropped. -/
theorem non_night_entries_retained_witness :
    format_forecast mixedDays 2 =
      .ok (joined ((mixedDays.filter (fun d => !(isNight d))).take 2)) :=
  non_night_entries_retained mixedDays 2 (by decide)

/-- Claim C2: on a daily-forecast list whose entries are dicts
labelled "Day" or "Night" in any interleaving, format_forecast keeps
exactly the first five "Day" entries in original order, discards every
"Night" entry wherever it sits, and renders the kept entries joined by
the separator (or the empty-result sentinel when none is kept); day
entries beyond the cap are silently ignored. -/
theorem format_forecast_keeps_day_entries (days : List Json)
    (hlab : ∀ d ∈ days, d.isObj = true ∧
      (pyEqStr (periodLabelOf d) "Day" = true ∨
        pyEqStr (periodLabelOf d) "Night" = true)) :
    format_forecast days 5 =
      .ok (joined ((days.filter (fun d => pyEqStr (periodLabelOf d) "Day")).take 5)) := by
  have hobj : ∀ d ∈ days, d.isObj = true := fun d hd => (hlab d hd).1
  have hfc : days.filter (fun d => !(isNight d)) =
      days.filter (fun d => pyEqStr (periodLabelOf d) "Day") := by
    apply List.filter_congr
    intro d hd
    rcases (hlab d hd).2 with h | h
    · have hpl := pyEqStr_true _ _ h
      simp [isNight, hpl, pyEqStr]
    · have hpl := pyEqStr_true _ _ h
      simp [isNight, hpl, pyEqStr]
  rw [format_forecast_eq_filter days 5 hobj, hfc]

/-- Witness for C2: the sample payload's interleaved three "Day" and
two "Night" entries. -/
theorem format_forecast_keeps_day_entries_witness :
    format_forecast sampleDays 5 =
      .ok (joined ((sampleDays.filter
        (fun d => pyEqStr (periodLabelOf d) "Day")).take 5)) :=
  format_forecast_keeps_day_entries sampleDays (by decide)

/-- Claim C8: each retained entry is rendered as the block
"\n{date}:\nForecast: {text}\n" -- a date line followed by a
forecast-label line -- with "Unknown date" substituted when the date
field is absent and "No forecast available" when the text field is
absent, and the blocks are joined with exactly "\n---\n". -/
theorem rendered_block_format :
    (∀ (days : List Json),
        (∀ d ∈ days, d.isObj = true ∧ isNight d = false) →
        days ≠ [] → days.length ≤ 5 →
        format_forecast days 5 = .ok (pyJoin "\n---\n" (days.map renderEntry))) ∧
    (∀ (fs : List (String × Json)) (dv tv : Json),
        lookupField fs "date" = some dv → lookupField fs "text" = some tv →
        renderEntry (.obj fs) =
          "\n" ++ (dv.pyStr ++ (":\nForecast: " ++ (tv.pyStr ++ "\n")))) ∧
    (∀ (fs : List (String × Json)),
        lookupField fs "date" = none → lookupField fs "text" = none →
        renderEntry (.obj fs) =
          "\n" ++ ("Unknown date" ++ (":\nForecast: " ++ ("No forecast available" ++ "\n")))) := by
  refine ⟨?_, ?_, ?_⟩
  · intro days h hne hlen
    have hobj : ∀ d ∈ days, d.isObj = true := fun d hd => (h d hd).1
    rw [format_forecast_eq_filter days 5 hobj]
    have hfilter : days.filter (fun d => !(isNight d)) = days := by
      apply List.filter_eq_self.mpr
      intro d hd
      simp [(h d hd).2]
    rw [hfilter, List.take_of_length_le hlen]
    have hemp : days.isEmpty = false := List.isEmpty_eq_false.mpr hne
    simp [joined, hemp]
  · intro fs dv tv h1 h2
    simp [renderEntry, renderBlock, dateFieldOf, textFieldOf, h1, h2]
  · intro fs h1 h2
    simp [renderEntry, renderBlock, dateFieldOf, textFieldOf, h1, h2, Json.pyStr]

/-- Witness for C8: a one-entry list with both fields present, an
entry with both fields present, and an entry with both absent. -/
theorem rendered_block_format_witness :
    format_forecast [.obj [("date", .str "2023-01-01"), ("text", .str "Sunny")]] 5 =
      .ok (pyJoin "\n---\n"
        ([Json.obj [("date", .str "2023-01-01"), ("text", .str "Sunny")]].map renderEntry)) ∧
    renderEntry (.obj [("date", .str "2023-01-01"), ("text", .str "Sunny")]) =
      "\n" ++ ((Json.str "2023-01-01").pyStr ++
        (":\nForecast: " ++ ((Json.str "Sunny").pyStr ++ "\n"))) ∧
    renderEntry (.obj []) =
      "\n" ++ ("Unknown date" ++ (":\nForecast: " ++ ("No forecast available" ++ "\n"))) :=
  ⟨rendered_block_format.1 _ (by decide) (List.cons_ne_nil _ _) (by decide),
   rendered_block_format.2.1 _ _ _ rfl rfl,
   rendered_block_format.2.2 [] rfl rfl⟩

/-- Claim C7: the three no-data outcomes map to three distinct
sentinels: a payload that is not a list or is an empty list yields the
fetch sentinel; a first element whose navigated daily-forecast value
is falsy (absent at either level or empty) yields the location
sentinel; a non-empty daily list all of whose entries are filtered out
yields the content sentinel. -/
theorem no_data_sentinels :
    (∀ (oc : Nat → AttemptOutcome) (j : Json), oc 0 = .success j →
      (j.isList = false ∨ j = .arr []) →
      (runForecast oc).output = "Unable to fetch forecast data for this location") ∧
    (∀ (oc : Nat → AttemptOutcome) (fd : Json) (rest : List Json) (dd : Json),
      oc 0 = .success (.arr (fd :: rest)) →
      dailyOf fd = .ok dd → dd.truthy = false →
      (runForecast oc).output = "No forecast data available for this location") ∧
    (∀ (oc : Nat → AttemptOutcome) (fd : Json) (rest days : List Json),
      oc 0 = .success (.arr (fd :: rest)) →
      dailyOf fd = .ok (.arr days) → days ≠ [] →
      (∀ d ∈ days, d.isObj = true ∧ isNight d = true) →
      (runForecast oc).output = "No forecast data available") ∧
    ("Unable to fetch forecast data for this location" ≠
        "No forecast data available for this location" ∧
      "Unable to fetch forecast data for this location" ≠
        "No forecast data available" ∧
      "No forecast data available for this location" ≠
        "No forecast data available") := by
  refine ⟨?_, ?_, ?_, by decide⟩
  · intro oc j h0 hshape
    have hr := make_gc_request_success oc MAX_RETRIES j h0
    have hpr : processResponse j = .ok "Unable to fetch forecast data for this location" := by
      rcases hshape with h | rfl
      · cases j <;> simp [Json.isList] at h <;> simp [processResponse]
      · simp [processResponse]
    simp [runForecast, hr, hpr]
  · intro oc fd rest dd h0 hdd htr
    have hr := make_gc_request_success oc MAX_RETRIES (.arr (fd :: rest)) h0
    have hpr : processResponse (.arr (fd :: rest)) =
        .ok "No forecast data available for this location" := by
      simp [processResponse, hdd, htr]
    simp [runForecast, hr, hpr]
  · intro oc fd rest days h0 hdd hne hnight
    have hr := make_gc_request_success oc MAX_RETRIES (.arr (fd :: rest)) h0
    have hobj : ∀ d ∈ days, d.isObj = true := fun d hd => (hnight d hd).1
    have hff := format_forecast_eq_filter days 5 hobj
    have hfe : days.filter (fun d => !(isNight d)) = [] := by
      apply List.filter_eq_nil_iff.mpr
      intro d hd
      simp [(hnight d hd).2]
    have htr : (Json.arr days).truthy = true := by
      simpa [Json.truthy] using hne
    have hpr : processResponse (.arr (fd :: rest)) = .ok "No forecast data available" := by
      simp [processResponse, hdd, htr, Json.pyIter, hff, hfe, joined]
    simp [runForecast, hr, hpr]

/-- Witness for C7: an empty-list payload, a payload whose first
element lacks dailyFcst, and a payload whose daily list is a single
Night entry. -/
theorem no_data_sentinels_witness :
    (runForecast (fun _ => .success (.arr []))).output =
      "Unable to fetch forecast data for this location" ∧
    (runForecast (fun _ => .success
        (.arr [.obj [("displayName", .str "Test City")]]))).output =
      "No forecast data available for this location" ∧
    (runForecast (fun _ => .success
        (.arr [.obj [("dailyFcst", .obj [("daily", .arr
          [.obj [("periodLabel", .str "Night")]])])]]))).output =
      "No forecast data available" :=
  ⟨no_data_sentinels.1 _ (.arr []) rfl (Or.inr rfl),
   no_data_sentinels.2.1 _ (.obj [("displayName", .str "Test City")]) [] (.arr []) rfl rfl rfl,
   no_data_sentinels.2.2.1 _ (.obj [("dailyFcst", .obj [("daily", .arr
      [.obj [("periodLabel", .str "Night")]])])]) []
      [.obj [("periodLabel", .str "Night")]] rfl rfl (List.cons_ne_nil _ _) (by decide)⟩

/-- Claim C6: validation is first-failure-wins in the order type
check, latitude range, longitude range; a non-numeric argument yields
the type-error string with no network attempt; a numeric latitude
outside [-90, 90] yields the latitude error whatever the longitude;
with latitude in range, a longitude outside [-180, 180] yields the
longitude error; boundary values pass validation and proceed to the
request pipeline. -/
theorem input_validation_order :
    (∀ (s : String) (b : PyValue) (oc : Nat → AttemptOutcome),
        get_forecast (.other s) b oc =
          ⟨"Error: Latitude and longitude must be numbers", 0, []⟩) ∧
    (∀ (a : PyValue) (s : String) (oc : Nat → AttemptOutcome),
        get_forecast a (.other s) oc =
          ⟨"Error: Latitude and longitude must be numbers", 0, []⟩) ∧
    (∀ (lat lon : ℚ) (oc : Nat → AttemptOutcome), lat < -90 ∨ lat > 90 →
        get_forecast (.num lat) (.num lon) oc =
          ⟨"Error: Latitude must be between -90 and 90 degrees", 0, []⟩) ∧
    (∀ (lat lon : ℚ) (oc : Nat → AttemptOutcome), -90 ≤ lat → lat ≤ 90 →
        lon < -180 ∨ lon > 180 →
        get_forecast (.num lat) (.num lon) oc =
          ⟨"Error: Longitude must be between -180 and 180 degrees", 0, []⟩) ∧
    (∀ (lat lon : ℚ) (oc : Nat → AttemptOutcome), -90 ≤ lat → lat ≤ 90 →
        -180 ≤ lon → lon ≤ 180 →
        get_forecast (.num lat) (.num lon) oc = runForecast oc) := by
  refine ⟨?_, ?_, ?_, ?_, ?_⟩
  · intro s b oc
    cases b <;> rfl
  · intro a s oc
    cases a <;> rfl
  · intro lat lon oc h
    simp only [get_forecast]
    rw [if_pos h]
  · intro lat lon oc h1 h2 h3
    simp only [get_forecast]
    rw [if_neg (by rintro (h | h) <;> linarith), if_pos h3]
  · intro lat lon oc h1 h2 h3 h4
    simp only [get_forecast]
    rw [if_neg (by rintro (h | h) <;> linarith),
      if_neg (by rintro (h | h) <;> linarith)]

/-- Witness for C6: a non-numeric latitude, an invalid latitude paired
with an invalid longitude (latitude wins), an invalid longitude, and
the extreme boundary coordinates passing validation. -/
theorem input_validation_order_witness :
    get_forecast (.other "x") (.num 0) (fun _ => .transport "t") =
      ⟨"Error: Latitude and longitude must be numbers", 0, []⟩ ∧
    get_forecast (.num 100) (.num 200) (fun _ => .transport "t") =
      ⟨"Error: Latitude must be between -90 and 90 degrees", 0, []⟩ ∧
    get_forecast (.num 0) (.num 200) (fun _ => .transport "t") =
      ⟨"Error: Longitude must be between -180 and 180 degrees", 0, []⟩ ∧
    get_forecast (.num 90) (.num (-180)) (fun _ => .transport "t") =
      runForecast (fun _ => .transport "t") :=
  ⟨input_validation_order.1 "x" (.num 0) (fun _ => .transport "t"),
   input_validation_order.2.2.1 100 200 (fun _ => .transport "t")
     (Or.inr (by norm_num)),
   input_validation_order.2.2.2.1 0 200 (fun _ => .transport "t")
     (by norm_num) (by norm_num) (Or.inr (by norm_num)),
   input_validation_order.2.2.2.2 90 (-180) (fun _ => .transport "t")
     (by norm_num) (by norm_num) (by norm_num) (by norm_num)⟩

/-- Claim C9: for every input and every payload the network layer can
deliver, the output of get_forecast never begins with the KeyError
handler's "Unable to process forecast data: missing key " prefix: all
payload navigation uses defaulting lookups, so that handler is
unreachable. -/
theorem missing_key_branch_unreachable (a b : PyValue) (oc : Nat → AttemptOutcome) :
    (missingKeyPrefix.data).isPrefixOf (get_forecast a b oc).output.data = false := by
  rcases get_forecast_classified a b oc with
    h | h | h | ⟨m, h⟩ | h | h | h | ⟨m, h⟩ | ⟨bk, bs, h, m, hb⟩ <;> rw [h]
  · decide
  · decide
  · decide
  · rfl
  · decide
  · decide
  · decide
  · rfl
  · subst hb
    cases bs with
    | nil => rfl
    | cons c cs => rfl

end Weather
